import Mathlib

/-!
# Verification of the SillyTavern-CacheMonitor diagnostic core

Shallow embedding of the cache-miss diagnostic engine of the
SillyTavern-CacheMonitor extension (main source file of the repository),
together with theorems settling the specification claims about it.

Modelling conventions used throughout:
* JavaScript numbers holding token counts, lengths, indices and timestamps
  are modelled as `Nat` (all are non-negative integers in every reachable
  state); money-as-float cost values are modelled as `ℚ` (exact arithmetic;
  the structural claims proved here — sums, differences, `max 0 _` — are
  insensitive to float rounding).
* `x || y` on JavaScript numbers (where `0`, `null` and `undefined` are
  falsy) is modelled by `jsOrNat`; on strings (where `""` is falsy) by
  `jsOrStr`.  Absent object fields are `Option`.
* `Date.now()` is passed in as an explicit `now : Nat` parameter; the
  several calls inside one synchronous handler are modelled as one instant.
* `charCodeAt` is modelled by the character's code point, and string
  indices/lengths count characters (identical to UTF-16 units on the BMP).
* The DOM, `localStorage` (`updateDailyStats`), `toastr` and logging side
  effects are outside the embedded state; the `toastr.warning` waste-warning
  emission is modelled as a returned `Bool`.
-/

namespace CacheMonitor

/-- JavaScript `x || y` for an optional number: `undefined`/`null` and `0`
are falsy, so the right operand is used exactly when the field is absent or
zero. -/
def jsOrNat (x : Option Nat) (y : Nat) : Nat :=
  match x with
  | some n => if n = 0 then y else n
  | none => y

/-- JavaScript `x || y` for an optional string: `undefined`/`null` and the
empty string are falsy. -/
def jsOrStr (x : Option String) (y : String) : String :=
  match x with
  | some s => if s = "" then y else s
  | none => y

/-- Lower-cased character list of a string (for the `/i` regex flag). -/
def charsLower (s : String) : List Char :=
  s.data.map Char.toLower

/-- Whether `needle` occurs as a contiguous run inside `hay` (character
lists). -/
def hasSub (needle : List Char) : List Char → Bool
  | [] => needle.isEmpty
  | c :: rest => needle.isPrefixOf (c :: rest) || hasSub needle rest

/-- Case-insensitive substring test: the embedding of
`/pat/i.test(hay)` for a literal pattern `pat` (also of
`hay.includes(pat)` up to case). -/
def strContainsCI (hay pat : String) : Bool :=
  hasSub (charsLower pat) (charsLower hay)

/-- JavaScript `str.substring(a, b)` (for `a ≤ b`; both clamped to the
string length). -/
def jsSubstring (s : String) (a b : Nat) : String :=
  String.mk ((s.data.drop a).take (b - a))

/-- `Math.round(t / 1000)` for a non-negative integer `t` of milliseconds:
round-half-up division. -/
def jsRoundDiv1000 (t : Nat) : Nat :=
  (t + 500) / 1000

/-! ## Usage records and the Usage Extractor (`parseUsageFromEvent`) -/

/-- The normalized usage record produced by `parseUsageFromEvent` (and
consumed by `processUsageData` / `calculateCosts`).  All numeric fields
default to `0` when absent in the payload, so they are plain `Nat` here. -/
structure Usage where
  model : String
  input_tokens : Nat
  output_tokens : Nat
  cache_read_input_tokens : Nat
  cache_creation_input_tokens : Nat
deriving DecidableEq, Repr

/-- The `prompt_tokens_details` sub-object of an OpenAI-style usage
object. -/
structure PromptTokensDetails where
  cached_tokens : Option Nat
deriving DecidableEq, Repr

/-- The fields of a decoded `usage` JSON object that the extractor reads.
Absent fields are `none`. -/
structure UsageObj where
  prompt_tokens : Option Nat
  completion_tokens : Option Nat
  input_tokens : Option Nat
  output_tokens : Option Nat
  cache_read_input_tokens : Option Nat
  cache_creation_input_tokens : Option Nat
  prompt_tokens_details : Option PromptTokensDetails
deriving DecidableEq, Repr

/-- The `message` sub-object of a native stream-start event. -/
structure MessageObj where
  model : Option String
  usage : Option UsageObj
deriving DecidableEq, Repr

/-- The fields of one decoded SSE JSON payload that `parseUsageFromEvent`
reads. -/
structure EventData where
  type : Option String
  model : Option String
  usage : Option UsageObj
  message : Option MessageObj
deriving DecidableEq, Repr

/-- Normalization of the OpenRouter/OpenAI shape (`data.usage` present):
the first branch of `parseUsageFromEvent`. -/
def genericRec (d : EventData) (u : UsageObj) : Usage :=
  { model := jsOrStr d.model ""
    input_tokens := jsOrNat u.prompt_tokens (jsOrNat u.input_tokens 0)
    output_tokens := jsOrNat u.completion_tokens (jsOrNat u.output_tokens 0)
    cache_read_input_tokens :=
      jsOrNat u.cache_read_input_tokens
        (jsOrNat (u.prompt_tokens_details.bind PromptTokensDetails.cached_tokens) 0)
    cache_creation_input_tokens := jsOrNat u.cache_creation_input_tokens 0 }

/-- Normalization of the native streaming delta shape
(`type === 'message_delta'` with `usage`): the second branch of
`parseUsageFromEvent`. -/
def deltaRec (u : UsageObj) : Usage :=
  { model := "claude"
    input_tokens := jsOrNat u.input_tokens 0
    output_tokens := jsOrNat u.output_tokens 0
    cache_read_input_tokens := jsOrNat u.cache_read_input_tokens 0
    cache_creation_input_tokens := jsOrNat u.cache_creation_input_tokens 0 }

/-- Normalization of the native stream-start shape
(`type === 'message_start'` with `message.usage`): the third branch of
`parseUsageFromEvent`. -/
def startRec (m : MessageObj) (u : UsageObj) : Usage :=
  { model := jsOrStr m.model "claude"
    input_tokens := jsOrNat u.input_tokens 0
    output_tokens := jsOrNat u.output_tokens 0
    cache_read_input_tokens := jsOrNat u.cache_read_input_tokens 0
    cache_creation_input_tokens := jsOrNat u.cache_creation_input_tokens 0 }

/-- `parseUsageFromEvent`, guard for guard in source order: the generic
`if (data.usage)` branch comes first, then the `message_delta` branch
(which also requires `data.usage`), then the `message_start` branch. -/
def parseUsageFromEvent (d : EventData) : Option Usage :=
  if d.usage.isSome then
    d.usage.map (genericRec d)
  else if d.type == some "message_delta" && d.usage.isSome then
    d.usage.map deltaRec
  else if d.type == some "message_start" && (d.message.bind MessageObj.usage).isSome then
    d.message.bind fun m => m.usage.map (startRec m)
  else
    none

/-- The extractor with the precedence order asserted by the specification:
delta event first, then stream-start event, then the generic usage object.
Used only to compare against the implemented order. -/
def parseUsageFromEventSpecOrder (d : EventData) : Option Usage :=
  if d.type == some "message_delta" && d.usage.isSome then
    d.usage.map deltaRec
  else if d.type == some "message_start" && (d.message.bind MessageObj.usage).isSome then
    d.message.bind fun m => m.usage.map (startRec m)
  else if d.usage.isSome then
    d.usage.map (genericRec d)
  else
    none

/-- The extractor with the amended precedence order: generic usage object
first, then delta, then stream-start; first match wins. -/
def parseUsageFromEventAmendedOrder (d : EventData) : Option Usage :=
  if d.usage.isSome then
    d.usage.map (genericRec d)
  else if d.type == some "message_delta" && d.usage.isSome then
    d.usage.map deltaRec
  else if d.type == some "message_start" && (d.message.bind MessageObj.usage).isSome then
    d.message.bind fun m => m.usage.map (startRec m)
  else
    none

/-! ## Cost Model (`calculateCosts`) -/

/-- A per-model price tier: prices per million tokens. -/
structure PriceTier where
  inputPrice : ℚ
  outputPrice : ℚ
  cacheWritePrice : ℚ
  cacheReadPrice : ℚ
deriving DecidableEq, Repr

/-- The price-tier lookup of `calculateCosts`: the if/else-if chain of
case-insensitive model-substring tests, defaulting to Sonnet 4.5 pricing. -/
def priceTier (model : String) : PriceTier :=
  if strContainsCI model "opus-4-5" || strContainsCI model "opus-4.5" then
    ⟨5, 25, 6.25, 0.50⟩
  else if strContainsCI model "opus-4-1" || strContainsCI model "opus-4.1" then
    ⟨15, 75, 18.75, 1.50⟩
  else if strContainsCI model "opus" then
    ⟨5, 25, 6.25, 0.50⟩
  else if strContainsCI model "haiku-4-5" || strContainsCI model "haiku-4.5" then
    ⟨1, 5, 1.25, 0.10⟩
  else if strContainsCI model "haiku" then
    ⟨0.80, 4, 1, 0.08⟩
  else
    ⟨3, 15, 3.75, 0.30⟩

/-- `Math.max(0, inputTokens - cacheRead)`: the non-cached input token
count billed at the plain input rate. -/
def nonCachedInput (u : Usage) : ℚ :=
  max 0 ((u.input_tokens : ℚ) - (u.cache_read_input_tokens : ℚ))

/-- The cost breakdown returned by `calculateCosts`. -/
structure CostBreakdown where
  inputCost : ℚ
  outputCost : ℚ
  cacheWriteCost : ℚ
  cacheReadCost : ℚ
  totalCost : ℚ
  costWithoutCache : ℚ
  savings : ℚ
deriving DecidableEq, Repr

/-- `calculateCosts`: pure cost computation from a usage record and the
hard-coded price table. -/
def calculateCosts (u : Usage) : CostBreakdown :=
  let p := priceTier u.model
  let inputCost := nonCachedInput u / 1000000 * p.inputPrice
  let outputCost := (u.output_tokens : ℚ) / 1000000 * p.outputPrice
  let cacheWriteCost := (u.cache_creation_input_tokens : ℚ) / 1000000 * p.cacheWritePrice
  let cacheReadCost := (u.cache_read_input_tokens : ℚ) / 1000000 * p.cacheReadPrice
  let totalCost := inputCost + outputCost + cacheWriteCost + cacheReadCost
  let costWithoutCache := (u.input_tokens : ℚ) / 1000000 * p.inputPrice + outputCost
  { inputCost := inputCost
    outputCost := outputCost
    cacheWriteCost := cacheWriteCost
    cacheReadCost := cacheReadCost
    totalCost := totalCost
    costWithoutCache := costWithoutCache
    savings := costWithoutCache - totalCost }

/-! ## Content Fingerprint Engine (`hashString`, `hashMessages`) -/

/-- Wrap an integer into the signed 32-bit range (the effect of
JavaScript's `| 0`-style coercion `hash & hash` and of `<<` operands). -/
def int32wrap (n : Int) : Int :=
  (n + 2147483648) % 4294967296 - 2147483648

/-- One iteration of `hashString`'s loop:
`hash = ((hash << 5) - hash) + char; hash = hash & hash`. -/
def hashStep (h : Int) (c : Nat) : Int :=
  int32wrap (int32wrap (h * 32) - h + c)

/-- `hashString`: the non-cryptographic 32-bit string hash, rendered in
hexadecimal as JavaScript's `Number.prototype.toString(16)` renders it
(with a leading minus sign for negative values). -/
def hashString (s : String) : String :=
  let h := s.data.foldl (fun h c => hashStep h c.toNat) 0
  if h < 0 then "-" ++ (Nat.toDigits 16 h.natAbs).asString
  else (Nat.toDigits 16 h.natAbs).asString

/-- One chat message of the outbound request body.  `content` holds the
message content in string form (the source applies `JSON.stringify` first
when the content is not a string); `cache_control` records whether an
explicit cache-boundary marker object is present on the message. -/
structure Message where
  role : String
  content : String
  cache_control : Bool
deriving DecidableEq, Repr

/-- Stand-in for `JSON.stringify(msg)`, used only as hash input: a fixed
canonical serialization (string escaping is not modelled; the result is
only ever compared for equality via `hashString`). -/
def stringifyMessage (m : Message) : String :=
  "\x7b\"role\":\"" ++ m.role ++ "\",\"content\":\"" ++ m.content ++ "\"" ++
    (if m.cache_control then ",\"cache_control\":\x7b\"type\":\"ephemeral\"\x7d" else "") ++
    "\x7d"

/-- One MessageFingerprint as built by `hashMessages`. -/
structure MessageFingerprint where
  index : Nat
  role : String
  contentPreview : String
  fullContent : String
  hash : String
  hasCacheControl : Bool
deriving DecidableEq, Repr

/-- `hashMessages`: fingerprints for each message of the (possibly absent)
request message array; `[]` when no array was captured. -/
def hashMessages : Option (List Message) → List MessageFingerprint
  | none => []
  | some msgs =>
    msgs.enum.map fun p =>
      { index := p.1
        role := p.2.role
        contentPreview := jsSubstring p.2.content 0 100
        fullContent := p.2.content
        hash := hashString (stringifyMessage p.2)
        hasCacheControl := p.2.cache_control }

/-! ## Divergence Locator (`findStringDiff`, `findDivergencePoint`) -/

/-- Length of the common prefix of two character lists (the loop of
`findStringDiff`). -/
def commonPrefixLen : List Char → List Char → Nat
  | a :: as, b :: bs => if a = b then commonPrefixLen as bs + 1 else 0
  | _, _ => 0

/-- The result object of `findStringDiff`.  The degenerate early return
(for an empty input string) carries no `markerPos` and no `lengthDiff`,
hence the `Option`s. -/
structure StringDiff where
  diffIndex : Nat
  markerPos : Option Nat
  context1 : String
  context2 : String
  lengthDiff : Option String
deriving DecidableEq, Repr

/-- `findStringDiff`: first differing character of two strings plus a
bounded context window around it. -/
def findStringDiff (str1 str2 : String) (contextChars : Nat) : StringDiff :=
  if str1.isEmpty || str2.isEmpty then
    { diffIndex := 0
      markerPos := none
      context1 := jsSubstring str1 0 500
      context2 := jsSubstring str2 0 500
      lengthDiff := none }
  else
    let len1 := str1.data.length
    let len2 := str2.data.length
    let diffIndex := commonPrefixLen str1.data str2.data
    let start := diffIndex - contextChars
    let end1 := min len1 (diffIndex + contextChars)
    let end2 := min len2 (diffIndex + contextChars)
    { diffIndex := diffIndex
      markerPos := some (diffIndex - start + (if 0 < start then 3 else 0))
      context1 := (if 0 < start then "..." else "") ++ jsSubstring str1 start end1 ++
        (if end1 < len1 then "..." else "")
      context2 := (if 0 < start then "..." else "") ++ jsSubstring str2 start end2 ++
        (if end2 < len2 then "..." else "")
      lengthDiff :=
        if len1 ≠ len2 then
          some ("Length: " ++ toString len1 ++ " → " ++ toString len2)
        else none }

/-- The result object of `findDivergencePoint`.  Each constructor tags one
of the source's return sites; `noPrevious` is the null-argument guard
(divergeIndex 0), `contentDiff` the in-loop hash mismatch, `countChanged`
the length-mismatch return (divergeIndex = shorter length), `noDivergence`
the final return (divergeIndex −1). -/
inductive DivergenceResult where
  | noPrevious
  | contentDiff (divergeIndex : Nat) (role : String) (diff : StringDiff)
      (prevContent currContent : String)
  | countChanged (divergeIndex prevLen currLen : Nat)
  | noDivergence
deriving DecidableEq, Repr

/-- The `divergeIndex` field of each return site. -/
def DivergenceResult.divergeIdx : DivergenceResult → Int
  | .noPrevious => 0
  | .contentDiff i _ _ _ _ => i
  | .countChanged i _ _ => i
  | .noDivergence => -1

/-- Whether the result is the in-loop content-mismatch return. -/
def DivergenceResult.isContentDiff : DivergenceResult → Bool
  | .contentDiff _ _ _ _ _ => true
  | _ => false

/-- `divergence.prevContent || ''`. -/
def DivergenceResult.prevContentOr : DivergenceResult → String → String
  | .contentDiff _ _ _ p _, dflt => if p = "" then dflt else p
  | _, dflt => dflt

/-- `divergence.currContent || ''`. -/
def DivergenceResult.currContentOr : DivergenceResult → String → String
  | .contentDiff _ _ _ _ c, dflt => if c = "" then dflt else c
  | _, dflt => dflt

/-- The index loop of `findDivergencePoint`: `i` is the current index,
`pLen`/`cLen` the original lengths (used by the length-mismatch return). -/
def findDivergenceAux : List MessageFingerprint → List MessageFingerprint →
    Nat → Nat → Nat → DivergenceResult
  | ph :: pt, ch :: ct, i, pLen, cLen =>
    if ph.hash ≠ ch.hash then
      .contentDiff i ch.role (findStringDiff ph.fullContent ch.fullContent 200)
        ph.fullContent ch.fullContent
    else
      findDivergenceAux pt ct (i + 1) pLen cLen
  | _, _, i, pLen, cLen =>
    if pLen ≠ cLen then .countChanged i pLen cLen else .noDivergence

/-- `findDivergencePoint`: first message-hash mismatch of two fingerprint
sequences (arguments are `Option` to mirror the source's null guard). -/
def findDivergencePoint (po co : Option (List MessageFingerprint)) : DivergenceResult :=
  match po, co with
  | some p, some c => findDivergenceAux p c 0 p.length c.length
  | _, _ => .noPrevious

/-! ## Pattern Detector (`detectContentPatterns`) -/

/-- Drop a case-insensitive literal prefix from a character list,
returning the remainder on success. -/
def dropPrefixCI : List Char → List Char → Option (List Char)
  | [], l => some l
  | _ :: _, [] => none
  | p :: ps, c :: cs =>
    if p.toLower = c.toLower then dropPrefixCI ps cs else none

/-- Shape of one scan pattern: a case-insensitive literal opening tag, a
separator character class (required or optional), a capture character
class, and an optional closing character.  Encodes the three global
regexes `<lore_entry\s+([^>]+)>`, `\[Lore:\s*([^\]]+)\]` and
`depth[:\s=]+(\d+)` of `detectContentPatterns`. -/
structure ScanSpec where
  tag : String
  sepOk : Char → Bool
  sepRequired : Bool
  capOk : Char → Bool
  closing : Option Char

/-- Try to match a scan pattern at the head of `l`; on success return the
captured group and the remainder after the match.  (Greedy backtracking of
the separator class into the capture is not modelled: a capture consisting
solely of separator characters directly before the closing character does
not match.  No claim depends on this corner.) -/
def matchAt (spec : ScanSpec) (l : List Char) : Option (String × List Char) :=
  match dropPrefixCI spec.tag.data l with
  | none => none
  | some after =>
    if spec.sepRequired && (after.takeWhile spec.sepOk).isEmpty then none
    else
      let after2 := after.dropWhile spec.sepOk
      let cap := after2.takeWhile spec.capOk
      if cap.isEmpty then none
      else
        let rest := after2.dropWhile spec.capOk
        match spec.closing with
        | some ch =>
          match rest with
          | c :: tail => if c = ch then some (String.mk cap, tail) else none
          | [] => none
        | none => some (String.mk cap, rest)

/-- All matches of a scan pattern in left-to-right order, each search
resuming after the end of the previous match (the `lastIndex` behaviour of
a `/g` regex).  Fuelled by the input length: every match consumes at least
the non-empty tag, so the fuel never runs out. -/
def scanAllAux (spec : ScanSpec) : Nat → List Char → List String
  | 0, _ => []
  | _, [] => []
  | fuel + 1, c :: rest =>
    match matchAt spec (c :: rest) with
    | some (name, tail) => name :: scanAllAux spec fuel tail
    | none => scanAllAux spec fuel rest

/-- All matches of a scan pattern in a character list. -/
def scanAll (spec : ScanSpec) (l : List Char) : List String :=
  scanAllAux spec l.length l

/-- `<lore_entry\s+([^>]+)>`. -/
def loreSpec : ScanSpec :=
  { tag := "<lore_entry", sepOk := Char.isWhitespace, sepRequired := true
    capOk := fun c => c ≠ '>', closing := some '>' }

/-- `\[Lore:\s*([^\]]+)\]`. -/
def altLoreSpec : ScanSpec :=
  { tag := "[Lore:", sepOk := Char.isWhitespace, sepRequired := false
    capOk := fun c => c ≠ ']', closing := some ']' }

/-- `depth[:\s=]+(\d+)`. -/
def depthSpec : ScanSpec :=
  { tag := "depth", sepOk := fun c => c = ':' || c = '=' || c.isWhitespace
    sepRequired := true, capOk := Char.isDigit, closing := none }

/-- `/system\s*prompt/i.test` — "system", optional whitespace, "prompt",
anywhere in the text. -/
def hasSysPromptPat : List Char → Bool
  | [] => false
  | c :: rest =>
    (match dropPrefixCI "system".data (c :: rest) with
     | some a => (dropPrefixCI "prompt".data (a.dropWhile Char.isWhitespace)).isSome
     | none => false) ||
    hasSysPromptPat rest

/-- The pattern flags and captures produced by `detectContentPatterns`. -/
structure ContentPatterns where
  hasLoreEntries : Bool
  loreEntryNames : List String
  hasDepthMarkers : Bool
  depthValues : List Nat
  hasSystemPrompt : Bool
  hasChatHistory : Bool
  hasCharacterCard : Bool
  hasPersona : Bool
deriving DecidableEq, Repr

/-- The all-false default patterns object. -/
def emptyPatterns : ContentPatterns :=
  { hasLoreEntries := false, loreEntryNames := [], hasDepthMarkers := false
    depthValues := [], hasSystemPrompt := false, hasChatHistory := false
    hasCharacterCard := false, hasPersona := false }

/-- `detectContentPatterns`: best-effort structural-cue scan of a content
string. -/
def detectContentPatterns (content : String) : ContentPatterns :=
  if content.isEmpty then emptyPatterns
  else
    let cs := content.data
    let loreNames := (scanAll loreSpec cs ++ scanAll altLoreSpec cs).map String.trim
    let depthVals := (scanAll depthSpec cs).map fun s => s.toNat?.getD 0
    { hasLoreEntries := !loreNames.isEmpty
      loreEntryNames := loreNames
      hasDepthMarkers := !depthVals.isEmpty
      depthValues := depthVals
      hasSystemPrompt := hasSysPromptPat cs || strContainsCI content "you are" ||
        strContainsCI content "your role is"
      hasChatHistory := strContainsCI content "[assistant]" ||
        strContainsCI content "[human]" || strContainsCI content "<msg>" ||
        strContainsCI content "<message>"
      hasCharacterCard := strContainsCI content "[character]" ||
        strContainsCI content "\x7b\x7bchar\x7d\x7d" ||
        strContainsCI content "<character>" || strContainsCI content "character card"
      hasPersona := strContainsCI content "[user]" ||
        strContainsCI content "\x7b\x7buser\x7d\x7d" ||
        strContainsCI content "<user>" || strContainsCI content "persona" }

/-! ## Lorebook-order analysis (`detectLoreOrderingIssues`) -/

/-- The `details` payload of a lore issue: entry orders (first five each)
for a reordering, added/removed names otherwise. -/
inductive LoreDetails where
  | orders (prevOrder currOrder : List String)
  | addedRemoved (added removed : List String)
deriving DecidableEq, Repr

/-- The lore-issue object of `detectLoreOrderingIssues` (`type` is
`"reordering"` or `"different_entries"`). -/
structure LoreIssue where
  type : String
  message : String
  recommendation : String
  details : LoreDetails
deriving DecidableEq, Repr

/-- The first index-wise mismatch of two name lists (the inner `for` loop
of the reordering check), as the pair of differing names. -/
def firstMismatch : List String → List String → Option (String × String)
  | a :: as, b :: bs => if a ≠ b then some (a, b) else firstMismatch as bs
  | _, _ => none

/-- Names of `curr` absent from the set of names of `prev`
(`currEntries.filter(e => !prevSet.has(e))`). -/
def addedOf (prev curr : List String) : List String :=
  curr.filter fun e => !prev.contains e

/-- Names of `prev` absent from the set of names of `curr`. -/
def removedOf (prev curr : List String) : List String :=
  prev.filter fun e => !curr.contains e

/-- `detectLoreOrderingIssues`: classify two lorebook entry-name lists.
Returns `none` when either list is empty; classifies `"reordering"` when
the lists have equal length, every previous name occurs in the current
name set, and some index differs; classifies `"different_entries"`
otherwise when the set-difference in either direction is non-empty. -/
def detectLoreOrderingIssues (prevEntries currEntries : List String) : Option LoreIssue :=
  if prevEntries.isEmpty || currEntries.isEmpty then none
  else
    let sameEntries := prevEntries.length == currEntries.length &&
      prevEntries.all fun e => currEntries.contains e
    if sameEntries then
      match firstMismatch prevEntries currEntries with
      | some ab =>
        some { type := "reordering"
               message := "Lorebook entries reordered (" ++ ab.1 ++ " ↔ " ++ ab.2 ++ ")"
               recommendation := "Fix lorebook entry ordering: Set unique \"Order\" values for each entry to ensure deterministic sorting."
               details := .orders (prevEntries.take 5) (currEntries.take 5) }
      | none => none
    else
      let added := addedOf prevEntries currEntries
      let removed := removedOf prevEntries currEntries
      if !added.isEmpty || !removed.isEmpty then
        some { type := "different_entries"
               message := "Different lorebook entries triggered"
               recommendation := "If entries change due to keywords, this is expected. For stable caching, set frequently-used entries to \"Constant\" mode."
               details := .addedRemoved added removed }
      else none

/-! ## Location classification (`analyzeDivergenceLocation`) -/

/-- The location-analysis object (`location` is `"early"`, `"middle"` or
`"late"`; `likelyCause` and `severity` are the source's string tags). -/
structure LocationAnalysis where
  location : String
  likelyCause : Option String
  recommendation : Option String
  severity : String
  details : Option LoreDetails
deriving DecidableEq, Repr

/-- `analyzeDivergenceLocation`.  The float comparison
`divergeIndex / totalMessages < 0.2` is modelled exactly over the
rationals as `5 * divergeIndex < totalMessages` (and `< 0.8` as
`5 * divergeIndex < 4 * totalMessages`); for `totalMessages = 0` both
models agree with the JavaScript NaN/Infinity comparisons (which are
false). `prevContent`/`currContent` are accepted but, as in the source,
unused. -/
def analyzeDivergenceLocation (divergeIndex totalMessages : Nat)
    (_prevContent _currContent : String) (pp cp : ContentPatterns) : LocationAnalysis :=
  if 5 * divergeIndex < totalMessages || divergeIndex < 3 then
    -- early divergence
    let afterLore : LocationAnalysis :=
      if pp.hasDepthMarkers || cp.hasDepthMarkers then
        { location := "early", likelyCause := some "depth_configuration"
          recommendation := some "Check preset depth settings. Entries with depth > 0 are inserted relative to chat history, causing instability. Set constant entries to depth 0."
          severity := "high", details := none }
      else
        { location := "early", likelyCause := some "system_prompt_change"
          recommendation := some "Early prompt content changed. Check: system prompt, character card, or author's notes injected at top."
          severity := "medium", details := none }
    if pp.hasLoreEntries || cp.hasLoreEntries then
      match detectLoreOrderingIssues pp.loreEntryNames cp.loreEntryNames with
      | some li =>
        { location := "early"
          likelyCause := some (if li.type == "reordering" then "lorebook_ordering" else "lorebook_keywords")
          recommendation := some li.recommendation
          severity := if li.type == "reordering" then "high" else "medium"
          details := some li.details }
      | none => afterLore
    else afterLore
  else if 5 * divergeIndex < 4 * totalMessages then
    -- middle divergence
    if pp.hasLoreEntries || cp.hasLoreEntries then
      { location := "middle", likelyCause := some "lorebook_depth_injection"
        recommendation := some "Lorebook entries injected at non-zero depth cause instability. Set all constant entries to depth 0 for better caching."
        severity := "high", details := none }
    else
      { location := "middle", likelyCause := some "injected_content"
        recommendation := some "Content injected mid-prompt (author's notes, world info, etc.). Check depth settings in your preset."
        severity := "medium", details := none }
  else
    -- late divergence
    { location := "late", likelyCause := some "chat_history"
      recommendation := some "Change is in recent chat history - this is expected behavior."
      severity := "low", details := none }

/-! ## Miss Diagnoser (`analyzeCacheMiss`) -/

/-- The strings pushed onto `analysis.reasons`, tagged by push site:
`firstRequest` = "First request - no previous cache", `ttlExpired s` =
"TTL expired (...s since last request, max 300s)" with `s` the rounded
second count, `divergence d` = the divergence result's reason text,
`systemPromptChanged` = "System prompt changed". -/
inductive MissReason where
  | firstRequest
  | ttlExpired (roundedSeconds : Nat)
  | divergence (d : DivergenceResult)
  | systemPromptChanged
deriving DecidableEq, Repr

/-- One entry of `analysis.recommendations`. -/
structure Recommendation where
  priority : Nat
  rtype : Option String
  message : String
  severity : String
  actionable : Option String
deriving DecidableEq, Repr

/-- The `primaryDiagnosis` object, tagged by which literal the if/else-if
chain of `analyzeCacheMiss` selected. -/
inductive PrimaryDiagnosis where
  | lorebookOrdering
  | differentLorebookEntries
  | depthConfiguration
  | lorebookDepthInjection
  | chatHistoryChange
  | earlyPromptInstability
deriving DecidableEq, Repr

/-- The analysis object returned by `analyzeCacheMiss`. -/
structure MissAnalysis where
  reasons : List MissReason
  divergence : Option DivergenceResult
  ttlWarning : Bool
  timeSinceLastRequest : Option Nat
  locationAnalysis : Option LocationAnalysis
  loreIssue : Option LoreIssue
  prevPatterns : Option ContentPatterns
  currPatterns : Option ContentPatterns
  recommendations : List Recommendation
  primaryDiagnosis : Option PrimaryDiagnosis
deriving DecidableEq, Repr

/-- The previous-request snapshot slot. -/
structure PreviousRequest where
  messages : Option (List Message)
  messageHashes : Option (List MessageFingerprint)
  systemPrompt : Option Message
  systemPromptHash : Option String
  timestamp : Option Nat
deriving DecidableEq, Repr

/-- The initial all-null snapshot. -/
def initialPreviousRequest : PreviousRequest :=
  { messages := none, messageHashes := none, systemPrompt := none
    systemPromptHash := none, timestamp := none }

/-- The TTL block of `analyzeCacheMiss`: reasons pushed, `ttlWarning`,
`timeSinceLastRequest`. -/
def ttlBlock (tsOpt : Option Nat) (now : Nat) : List MissReason × Bool × Option Nat :=
  match tsOpt with
  | some ts =>
    let timeSince := now - ts
    if 300000 < timeSince then
      ([MissReason.ttlExpired (jsRoundDiv1000 timeSince)], true, some timeSince)
    else ([], false, some timeSince)
  | none => ([MissReason.firstRequest], false, none)

/-- The result of the divergence block of `analyzeCacheMiss`. -/
structure DivBlockOut where
  reasons : List MissReason
  divergence : Option DivergenceResult
  prevPatterns : Option ContentPatterns
  currPatterns : Option ContentPatterns
  loreIssue : Option LoreIssue
  locationAnalysis : Option LocationAnalysis
  primaryDiagnosis : Option PrimaryDiagnosis
deriving DecidableEq, Repr

/-- The primary-diagnosis if/else-if chain of `analyzeCacheMiss`. -/
def primaryFrom (li : Option LoreIssue) (la : LocationAnalysis) : Option PrimaryDiagnosis :=
  if (li.map LoreIssue.type) == some "reordering" then some .lorebookOrdering
  else if (li.map LoreIssue.type) == some "different_entries" then
    some .differentLorebookEntries
  else if la.likelyCause == some "depth_configuration" then some .depthConfiguration
  else if la.likelyCause == some "lorebook_depth_injection" then
    some .lorebookDepthInjection
  else if la.location == "late" then some .chatHistoryChange
  else if la.location == "early" then some .earlyPromptInstability
  else none

/-- The divergence block of `analyzeCacheMiss`: runs the Divergence
Locator against the stored previous fingerprints and, when a divergence
index was found, the Pattern Detector, lore analysis, location
classification and primary-diagnosis selection. -/
def divBlock (prevHashes : Option (List MessageFingerprint))
    (currentHashes : List MessageFingerprint) : DivBlockOut :=
  match prevHashes with
  | some ph =>
    let d := findDivergencePoint (some ph) (some currentHashes)
    if 0 ≤ d.divergeIdx then
      let pc := d.prevContentOr ""
      let cc := d.currContentOr ""
      let pp := detectContentPatterns pc
      let cp := detectContentPatterns cc
      let li :=
        if pp.hasLoreEntries || cp.hasLoreEntries then
          detectLoreOrderingIssues pp.loreEntryNames cp.loreEntryNames
        else none
      let la := analyzeDivergenceLocation d.divergeIdx.toNat currentHashes.length pc cc pp cp
      { reasons := [MissReason.divergence d], divergence := some d
        prevPatterns := some pp, currPatterns := some cp, loreIssue := li
        locationAnalysis := some la, primaryDiagnosis := primaryFrom li la }
    else
      { reasons := [], divergence := some d, prevPatterns := none
        currPatterns := none, loreIssue := none, locationAnalysis := none
        primaryDiagnosis := none }
  | none =>
    { reasons := [], divergence := none, prevPatterns := none
      currPatterns := none, loreIssue := none, locationAnalysis := none
      primaryDiagnosis := none }

/-- The system-prompt-changed check at the end of `analyzeCacheMiss`. -/
def sysPromptBlock (prevSysHash : Option String) :
    Option (List Message) → List MissReason
  | some (m :: _) =>
    if m.role == "system" then
      match prevSysHash with
      | some h =>
        if h ≠ hashString (stringifyMessage m) then [MissReason.systemPromptChanged]
        else []
      | none => []
    else []
  | _ => []

/-- `generateSmartRecommendations`: the three pushes, stably sorted by
ascending priority (only priorities 1 and 2 occur, so the stable sort is
the priority-1 entries in push order followed by the priority-2 ones). -/
def generateSmartRecommendations (a : MissAnalysis) : List Recommendation :=
  let locRecs : List Recommendation :=
    match a.locationAnalysis with
    | some loc =>
      match loc.recommendation with
      | some r =>
        if r ≠ "" then
          [{ priority := 1, rtype := loc.likelyCause, message := r
             severity := loc.severity, actionable := none }]
        else []
      | none => []
    | none => []
  let ttlRecs : List Recommendation :=
    if a.ttlWarning then
      [{ priority := 2, rtype := some "ttl_expired"
         message := "Cache expired due to 5-minute TTL. Send messages more frequently to maintain cache."
         severity := "medium", actionable := none }]
    else []
  let loreRecs : List Recommendation :=
    match a.loreIssue with
    | some li =>
      [{ priority := 1, rtype := some li.type, message := li.message
         severity := if li.type == "reordering" then "high" else "medium"
         actionable := some li.recommendation }]
    | none => []
  let pushed := locRecs ++ ttlRecs ++ loreRecs
  pushed.filter (fun r => r.priority = 1) ++ pushed.filter (fun r => r.priority ≠ 1)

/-- `analyzeCacheMiss`: the per-miss diagnosis state machine, assembled
from the TTL block, the divergence block and the system-prompt check, in
source order. -/
def analyzeCacheMiss (prev : PreviousRequest) (currentMessages : Option (List Message))
    (currentHashes : List MessageFingerprint) (now : Nat) : MissAnalysis :=
  let t := ttlBlock prev.timestamp now
  let d := divBlock prev.messageHashes currentHashes
  let s := sysPromptBlock prev.systemPromptHash currentMessages
  let base : MissAnalysis :=
    { reasons := t.1 ++ d.reasons ++ s
      divergence := d.divergence
      ttlWarning := t.2.1
      timeSinceLastRequest := t.2.2
      locationAnalysis := d.locationAnalysis
      loreIssue := d.loreIssue
      prevPatterns := d.prevPatterns
      currPatterns := d.currPatterns
      recommendations := []
      primaryDiagnosis := d.primaryDiagnosis }
  { base with recommendations := generateSmartRecommendations base }

/-! ## Session Aggregator (`processUsageData`) -/

/-- One entry of the bounded request-history buffer. -/
structure HistoryEntry where
  timestamp : Nat
  responseTimeMs : Nat
  usage : Usage
  cacheHit : Bool
  cacheWrite : Bool
  costs : CostBreakdown
  analysis : Option MissAnalysis
  messageHashes : List MessageFingerprint
  messageCount : Nat
deriving DecidableEq, Repr

/-- The session-wide aggregate counters and history buffer. -/
structure SessionStats where
  totalRequests : Nat
  cacheHits : Nat
  cacheMisses : Nat
  consecutiveMisses : Nat
  totalInputTokens : Nat
  totalCacheReadTokens : Nat
  totalCacheWriteTokens : Nat
  lastUsage : Option Usage
  requestHistory : List HistoryEntry
deriving DecidableEq, Repr

/-- The zero session state. -/
def initialSessionStats : SessionStats :=
  { totalRequests := 0, cacheHits := 0, cacheMisses := 0, consecutiveMisses := 0
    totalInputTokens := 0, totalCacheReadTokens := 0, totalCacheWriteTokens := 0
    lastUsage := none, requestHistory := [] }

/-- The per-request tracking slot filled by the fetch interceptor. -/
structure CurrentRequest where
  active : Bool
  startTime : Option Nat
  usage : Option Usage
  messages : Option (List Message)
deriving DecidableEq, Repr

/-- A current-request slot with no captured request body. -/
def emptyCurrentRequest : CurrentRequest :=
  { active := false, startTime := none, usage := none, messages := none }

/-- The extension settings consumed by `processUsageData`. -/
structure MonitorSettings where
  autoPauseOnWaste : Bool
  wasteThreshold : Nat
deriving DecidableEq, Repr

/-- `/claude/i.test(model)`: the acceptance test of `processUsageData`. -/
def isClaude (model : String) : Bool :=
  strContainsCI model "claude"

/-- The history append of `processUsageData` combined with its deferred
overflow check (`requestHistory.push(entry)` followed, after steps that do
not touch the history, by
`if (requestHistory.length > 100) requestHistory.shift()`). -/
def pushTrim (l : List HistoryEntry) (e : HistoryEntry) : List HistoryEntry :=
  if 100 < (l ++ [e]).length then (l ++ [e]).drop 1 else l ++ [e]

/-- The tuple of mutable state read and written by one `processUsageData`
call, plus the waste-warning emission (`toastr.warning`) as a `Bool`. -/
structure ProcessResult where
  stats : SessionStats
  prev : PreviousRequest
  cur : CurrentRequest
  warned : Bool
deriving DecidableEq, Repr

/-- `processUsageData`: the full per-record update of the session state —
Claude-model gate, counter updates, hit/write-miss classification, cost
calculation, miss analysis, history append, previous-snapshot replacement,
ring-buffer eviction and waste-warning check, in source order. -/
def processUsageData (settings : MonitorSettings) (now : Nat)
    (cur : CurrentRequest) (prev : PreviousRequest) (stats : SessionStats)
    (usage : Usage) : ProcessResult :=
  if !isClaude usage.model then
    { stats := stats, prev := prev, cur := cur, warned := false }
  else
    let hadCacheRead := 0 < usage.cache_read_input_tokens
    let hadCacheWrite := 0 < usage.cache_creation_input_tokens
    let cur' := { cur with usage := some usage }
    let stats1 :=
      { stats with
        totalRequests := stats.totalRequests + 1
        totalInputTokens := stats.totalInputTokens + usage.input_tokens
        totalCacheReadTokens := stats.totalCacheReadTokens + usage.cache_read_input_tokens
        totalCacheWriteTokens :=
          stats.totalCacheWriteTokens + usage.cache_creation_input_tokens
        lastUsage := some usage }
    let stats2 :=
      if hadCacheRead then
        { stats1 with cacheHits := stats1.cacheHits + 1, consecutiveMisses := 0 }
      else if hadCacheWrite then
        { stats1 with
          cacheMisses := stats1.cacheMisses + 1
          consecutiveMisses := stats1.consecutiveMisses + 1 }
      else stats1
    let responseTime := match cur.startTime with | some t => now - t | none => 0
    let costs := calculateCosts usage
    let currentHashes := hashMessages cur.messages
    let analysis :=
      if hadCacheWrite && !hadCacheRead then
        some (analyzeCacheMiss prev cur.messages currentHashes now)
      else none
    let entry : HistoryEntry :=
      { timestamp := now, responseTimeMs := responseTime, usage := usage
        cacheHit := hadCacheRead, cacheWrite := hadCacheWrite, costs := costs
        analysis := analysis, messageHashes := currentHashes
        messageCount := (cur.messages.map List.length).getD 0 }
    let stats3 := { stats2 with requestHistory := pushTrim stats2.requestHistory entry }
    let prev' :=
      match cur.messages with
      | some msgs =>
        { messages := some msgs
          messageHashes := some currentHashes
          systemPrompt :=
            match msgs with
            | m :: _ => if m.role == "system" then some m else none
            | [] => none
          systemPromptHash :=
            match msgs with
            | m :: _ =>
              if m.role == "system" then some (hashString (stringifyMessage m))
              else none
            | [] => none
          timestamp := some now }
      | none => prev
    let warned :=
      settings.autoPauseOnWaste && decide (settings.wasteThreshold ≤ stats3.consecutiveMisses)
    { stats := stats3, prev := prev', cur := cur', warned := warned }

/-! ## Concrete inputs used by individual claims -/

/-- A decoded payload matching both the delta shape and the generic usage
shape: a `message_delta` event that also carries a top-level `usage`
object and a non-Claude model identifier. -/
def c1Event : EventData :=
  { type := some "message_delta"
    model := some "gpt-4"
    usage := some
      { prompt_tokens := none, completion_tokens := none, input_tokens := some 1
        output_tokens := none, cache_read_input_tokens := none
        cache_creation_input_tokens := none, prompt_tokens_details := none }
    message := none }

/-- A fingerprint whose hash and content are the given string (for the
Divergence Locator examples). -/
def mkFp (s : String) : MessageFingerprint :=
  { index := 0, role := "user", contentPreview := s, fullContent := s
    hash := s, hasCacheControl := false }

/-- Patterns showing one lorebook entry named "Alpha" and nothing else. -/
def c5Prev : ContentPatterns :=
  { emptyPatterns with hasLoreEntries := true, loreEntryNames := ["Alpha"] }

/-- Patterns showing one lorebook entry named "Beta" and nothing else. -/
def c5Curr : ContentPatterns :=
  { emptyPatterns with hasLoreEntries := true, loreEntryNames := ["Beta"] }

/-- Patterns with lorebook entries A then B. -/
def c5WitPrev : ContentPatterns :=
  { emptyPatterns with hasLoreEntries := true, loreEntryNames := ["A", "B"] }

/-- Patterns with the same lorebook entries in the order B then A. -/
def c5WitCurr : ContentPatterns :=
  { emptyPatterns with hasLoreEntries := true, loreEntryNames := ["B", "A"] }

/-- A Claude usage record that writes to the cache without reading:
a write-miss on every processing step. -/
def c7MissUsage : Usage :=
  { model := "claude-sonnet-4-5", input_tokens := 1000, output_tokens := 10
    cache_read_input_tokens := 0, cache_creation_input_tokens := 800 }

/-- Waste warning enabled with the default threshold 3. -/
def c7Settings : MonitorSettings :=
  { autoPauseOnWaste := true, wasteThreshold := 3 }

/-- Session state (stats, previous snapshot, current-request slot) after
`n` consecutive write-miss records from the initial state. -/
def c7State : Nat → SessionStats × PreviousRequest × CurrentRequest
  | 0 => (initialSessionStats, initialPreviousRequest, emptyCurrentRequest)
  | n + 1 =>
    let s := c7State n
    let r := processUsageData c7Settings (n + 1) s.2.2 s.2.1 s.1 c7MissUsage
    (r.stats, r.prev, r.cur)

/-- Whether the waste warning is emitted while processing the `(n+1)`-th
consecutive write-miss record. -/
def c7WarnedAt (n : Nat) : Bool :=
  let s := c7State n
  (processUsageData c7Settings (n + 1) s.2.2 s.2.1 s.1 c7MissUsage).warned

/-- The `i`-th accepted Claude record of the ring-buffer run, identified
by its `input_tokens` value. -/
def c9Usage (i : Nat) : Usage :=
  { model := "claude", input_tokens := i, output_tokens := 0
    cache_read_input_tokens := 0, cache_creation_input_tokens := 0 }

/-- Warning disabled; irrelevant to the ring buffer. -/
def c9Settings : MonitorSettings :=
  { autoPauseOnWaste := false, wasteThreshold := 3 }

/-- Session state after the first `n` records `c9Usage 1 … c9Usage n`
have been processed from the initial state. -/
def c9State : Nat → SessionStats × PreviousRequest × CurrentRequest
  | 0 => (initialSessionStats, initialPreviousRequest, emptyCurrentRequest)
  | n + 1 =>
    let s := c9State n
    let r := processUsageData c9Settings (n + 1) s.2.2 s.2.1 s.1 (c9Usage (n + 1))
    (r.stats, r.prev, r.cur)

/-- A Claude usage record with a cache read: a hit. -/
def sampleHitUsage : Usage :=
  { model := "claude", input_tokens := 100, output_tokens := 10
    cache_read_input_tokens := 50, cache_creation_input_tokens := 0 }

/-- A Claude usage record with a cache write and no read: a write-miss. -/
def sampleMissUsage : Usage :=
  { model := "claude", input_tokens := 100, output_tokens := 10
    cache_read_input_tokens := 0, cache_creation_input_tokens := 800 }

/-- Settings with the waste warning disabled. -/
def sampleNeutralSettings : MonitorSettings :=
  { autoPauseOnWaste := false, wasteThreshold := 3 }

/-! ## Helper lemmas -/

set_option maxRecDepth 4000

/-- The just-appended entry is still the last one after a possible
overflow eviction. -/
lemma pushTrim_getLast (l : List HistoryEntry) (e : HistoryEntry) :
    (pushTrim l e).getLast? = some e := by
  unfold pushTrim
  split
  · rename_i h
    match l with
    | [] => simp at h
    | a :: as => simp [List.getLast?_concat]
  · exact List.getLast?_concat l

/-- Appending with overflow eviction preserves the capacity bound. -/
lemma pushTrim_length_le (l : List HistoryEntry) (e : HistoryEntry)
    (h : l.length ≤ 100) : (pushTrim l e).length ≤ 100 := by
  unfold pushTrim
  split <;> rename_i hc <;>
    simp only [List.length_drop, List.length_append, List.length_singleton] at * <;>
    omega

/-- A list is index-wise equal to itself, so the mismatch scan finds
nothing. -/
lemma firstMismatch_self (l : List String) : firstMismatch l l = none := by
  induction l with
  | nil => rfl
  | cons a as ih => simp [firstMismatch, ih]

/-- Two distinct lists of equal length have a first index-wise
mismatch. -/
lemma firstMismatch_isSome (p c : List String) (hlen : p.length = c.length)
    (hne : p ≠ c) : (firstMismatch p c).isSome = true := by
  induction p generalizing c with
  | nil =>
    cases c with
    | nil => exact absurd rfl hne
    | cons b bs => simp at hlen
  | cons a as ih =>
    cases c with
    | nil => simp at hlen
    | cons b bs =>
      by_cases hab : a = b
      · subst hab
        have : as ≠ bs := fun h => hne (by rw [h])
        simpa [firstMismatch] using ih bs (by simpa using hlen) this
      · simp [firstMismatch, hab]

/-- Without a stored system-prompt hash the system-prompt check pushes
nothing. -/
lemma sysPromptBlock_none (m : Option (List Message)) :
    sysPromptBlock none m = [] := by
  match m with
  | none => rfl
  | some [] => rfl
  | some (x :: xs) => simp [sysPromptBlock]

/-- The system-prompt check only ever pushes the system-prompt-changed
reason. -/
lemma sysPromptBlock_subset (h : Option String) (m : Option (List Message)) :
    ∀ x ∈ sysPromptBlock h m, x = MissReason.systemPromptChanged := by
  intro x hx
  match m, h with
  | none, _ => simp [sysPromptBlock] at hx
  | some [], _ => simp [sysPromptBlock] at hx
  | some (y :: ys), none =>
    simp only [sysPromptBlock] at hx
    split at hx <;> simp at hx
  | some (y :: ys), some hh =>
    simp only [sysPromptBlock] at hx
    split at hx
    · split at hx
      · simpa using hx
      · simp at hx
    · simp at hx

/-- The divergence block pushes either nothing or exactly one
divergence-tagged reason. -/
lemma divBlock_reasons (mh : Option (List MessageFingerprint))
    (ch : List MessageFingerprint) :
    (divBlock mh ch).reasons = [] ∨
      ∃ d, (divBlock mh ch).reasons = [MissReason.divergence d] := by
  match mh with
  | none => exact Or.inl rfl
  | some ph =>
    simp only [divBlock]
    split
    · exact Or.inr ⟨_, rfl⟩
    · exact Or.inl rfl

/-! ## Claim C1 — Usage Extractor precedence -/

/-- **C1, counterexample.**  A `message_delta` event that also carries a
top-level `usage` object and a non-Claude model: the implementation takes
the generic branch first (model `"gpt-4"`), whereas the claimed order
delta → start → generic would take the delta branch (model `"claude"`),
so the two orders disagree. -/
theorem c1_precedence_counterexample :
    parseUsageFromEvent c1Event ≠ parseUsageFromEventSpecOrder c1Event ∧
    (parseUsageFromEvent c1Event).map Usage.model = some "gpt-4" ∧
    (parseUsageFromEventSpecOrder c1Event).map Usage.model = some "claude" := by
  refine ⟨by decide, by decide, by decide⟩

/-- **C1 (amended).**  `parseUsageFromEvent` checks the shapes in the
order generic usage object → native delta event → native stream-start
event, first match wins; the delta branch additionally requires a
top-level `usage` object, so it is subsumed by the generic branch and
never produces a record: (1) whenever a top-level `usage` object is
present, the generic normalization is returned, even for delta or
stream-start events; (2) a delta event without a top-level `usage` object
yields nothing; (3) without a top-level `usage` object, a stream-start
event with a `message.usage` object yields the stream-start
normalization; (4) with neither `usage` nor `message.usage` present,
nothing is returned. -/
theorem c1_extractor_precedence (d : EventData) :
    (∀ u, d.usage = some u → parseUsageFromEvent d = some (genericRec d u)) ∧
    (d.usage = none → d.type = some "message_delta" → parseUsageFromEvent d = none) ∧
    (d.usage = none → ∀ m u, d.message = some m → m.usage = some u →
      d.type = some "message_start" → parseUsageFromEvent d = some (startRec m u)) ∧
    (d.usage = none → d.message.bind MessageObj.usage = none →
      parseUsageFromEvent d = none) := by
  refine ⟨?_, ?_, ?_, ?_⟩
  · intro u hu
    simp [parseUsageFromEvent, hu]
  · intro hu ht
    simp [parseUsageFromEvent, hu, ht]
  · intro hu m u hm hmu ht
    simp [parseUsageFromEvent, hu, ht, hm, hmu]
  · intro hu hmu
    simp [parseUsageFromEvent, hu, hmu]

/-- **C1, witness.**  The amended precedence applied to the concrete
double-shape event: the generic branch wins. -/
theorem c1_precedence_witness :
    parseUsageFromEvent c1Event =
      some (genericRec c1Event
        { prompt_tokens := none, completion_tokens := none, input_tokens := some 1
          output_tokens := none, cache_read_input_tokens := none
          cache_creation_input_tokens := none, prompt_tokens_details := none }) :=
  (c1_extractor_precedence c1Event).1 _ rfl

/-! ## Claim C8 — Cost Model -/

/-- **C8.**  `calculateCosts` bills `max(0, input − cache_read)` non-cached
input tokens (never negative), `totalCost` is the sum of the four cost
components, `savings = costWithoutCache − totalCost` and can be negative
(cache-write overhead with no read benefit), and at Sonnet-tier pricing an
all-input record of 1,000,000 tokens costs 3.0 input-price units with zero
savings. -/
theorem c8_cost_model (u : Usage) :
    0 ≤ nonCachedInput u ∧
    (calculateCosts u).totalCost =
      (calculateCosts u).inputCost + (calculateCosts u).outputCost +
        (calculateCosts u).cacheWriteCost + (calculateCosts u).cacheReadCost ∧
    (calculateCosts u).savings =
      (calculateCosts u).costWithoutCache - (calculateCosts u).totalCost ∧
    (calculateCosts
      { model := "claude-sonnet-4-5", input_tokens := 0, output_tokens := 0
        cache_read_input_tokens := 0, cache_creation_input_tokens := 1000000 }).savings < 0 ∧
    (calculateCosts
      { model := "claude-sonnet-4-5", input_tokens := 1000000, output_tokens := 0
        cache_read_input_tokens := 0, cache_creation_input_tokens := 0 }).inputCost = 3 ∧
    (calculateCosts
      { model := "claude-sonnet-4-5", input_tokens := 1000000, output_tokens := 0
        cache_read_input_tokens := 0, cache_creation_input_tokens := 0 }).savings = 0 := by
  have hpt : priceTier "claude-sonnet-4-5" = ⟨3, 15, 3.75, 0.30⟩ := by
    have h1 : strContainsCI "claude-sonnet-4-5" "opus-4-5" = false := by decide
    have h2 : strContainsCI "claude-sonnet-4-5" "opus-4.5" = false := by decide
    have h3 : strContainsCI "claude-sonnet-4-5" "opus-4-1" = false := by decide
    have h4 : strContainsCI "claude-sonnet-4-5" "opus-4.1" = false := by decide
    have h5 : strContainsCI "claude-sonnet-4-5" "opus" = false := by decide
    have h6 : strContainsCI "claude-sonnet-4-5" "haiku-4-5" = false := by decide
    have h7 : strContainsCI "claude-sonnet-4-5" "haiku-4.5" = false := by decide
    have h8 : strContainsCI "claude-sonnet-4-5" "haiku" = false := by decide
    simp [priceTier, h1, h2, h3, h4, h5, h6, h7, h8]
  refine ⟨le_max_left 0 _, rfl, rfl, ?_, ?_, ?_⟩
  · norm_num [calculateCosts, hpt, nonCachedInput]
  · norm_num [calculateCosts, hpt, nonCachedInput]
  · norm_num [calculateCosts, hpt, nonCachedInput]

/-! ## Claim C2 — hit / write-miss / no-activity classification -/

/-- **C2.**  For every usage record accepted by `processUsageData` (Claude
model string): a positive `cache_read_input_tokens` is a hit —
`cacheHits` increments, `consecutiveMisses` resets to 0, `cacheMisses` is
unchanged, and the history entry records a hit; `cache_read = 0` with
positive `cache_creation_input_tokens` is a write-miss — `cacheMisses`
increments, `consecutiveMisses` increments by exactly 1, `cacheHits` is
unchanged, and the history entry records a write without a hit; with both
zero, none of the three counters change. -/
theorem c2_hit_miss_classification (settings : MonitorSettings) (now : Nat)
    (cur : CurrentRequest) (prev : PreviousRequest) (stats : SessionStats)
    (usage : Usage) (r : ProcessResult)
    (hr : processUsageData settings now cur prev stats usage = r)
    (hclaude : isClaude usage.model = true) :
    (0 < usage.cache_read_input_tokens →
      r.stats.cacheHits = stats.cacheHits + 1 ∧ r.stats.consecutiveMisses = 0 ∧
      r.stats.cacheMisses = stats.cacheMisses ∧
      r.stats.requestHistory.getLast?.map HistoryEntry.cacheHit = some true) ∧
    (usage.cache_read_input_tokens = 0 → 0 < usage.cache_creation_input_tokens →
      r.stats.cacheMisses = stats.cacheMisses + 1 ∧
      r.stats.consecutiveMisses = stats.consecutiveMisses + 1 ∧
      r.stats.cacheHits = stats.cacheHits ∧
      r.stats.requestHistory.getLast?.map HistoryEntry.cacheHit = some false ∧
      r.stats.requestHistory.getLast?.map HistoryEntry.cacheWrite = some true) ∧
    (usage.cache_read_input_tokens = 0 → usage.cache_creation_input_tokens = 0 →
      r.stats.cacheHits = stats.cacheHits ∧ r.stats.cacheMisses = stats.cacheMisses ∧
      r.stats.consecutiveMisses = stats.consecutiveMisses) := by
  subst hr
  refine ⟨fun hread => ?_, fun hread hwrite => ?_, fun hread hwrite => ?_⟩
  · simp only [processUsageData, hclaude, Bool.not_true, Bool.false_eq_true, if_false]
    simp only [hread, decide_True, Bool.not_true, Bool.and_false, Bool.false_eq_true,
      if_false, if_true]
    simp [pushTrim_getLast]
  · simp only [processUsageData, hclaude, Bool.not_true, Bool.false_eq_true, if_false]
    simp only [hread, hwrite, lt_self_iff_false, decide_False, decide_True,
      Bool.not_false, Bool.and_true, eq_self_iff_true, if_false, if_true]
    simp [pushTrim_getLast]
  · simp only [processUsageData, hclaude, Bool.not_true, Bool.false_eq_true, if_false]
    simp only [hread, hwrite, lt_self_iff_false, decide_False, Bool.false_and,
      Bool.false_eq_true, if_false]
    simp

/-- **C2, witness.**  The hit and no-activity cases at concrete inputs. -/
theorem c2_classification_witness :
    0 < sampleHitUsage.cache_read_input_tokens ∧
    (processUsageData sampleNeutralSettings 0 emptyCurrentRequest
        initialPreviousRequest initialSessionStats sampleHitUsage).stats.cacheHits =
      initialSessionStats.cacheHits + 1 ∧
    (processUsageData sampleNeutralSettings 0 emptyCurrentRequest
        initialPreviousRequest initialSessionStats sampleHitUsage).stats.consecutiveMisses = 0 :=
  ⟨by decide,
    ((c2_hit_miss_classification _ _ _ _ _ _ _ rfl (by decide)).1 (by decide)).1,
    ((c2_hit_miss_classification _ _ _ _ _ _ _ rfl (by decide)).1 (by decide)).2.1⟩

/-! ## Claim C7 — waste warning -/

/-- **C7, counterexample.**  Threshold 3, warning enabled, four
consecutive write-misses from the initial state: the consecutive-miss
counter reaches the threshold at the 3rd record and the warning fires
there, but it fires *again* at the 4th record of the same streak (the
counter was already at the threshold, no hit intervened), so it does not
fire exactly once per threshold crossing. -/
theorem c7_refire_counterexample :
    c7Settings.wasteThreshold = 3 ∧
    (c7State 2).1.consecutiveMisses = 2 ∧
    (c7State 3).1.consecutiveMisses = 3 ∧
    (c7State 4).1.consecutiveMisses = 4 ∧
    c7WarnedAt 2 = true ∧
    c7WarnedAt 3 = true := by
  refine ⟨rfl, by decide, by decide, by decide, by decide, by decide⟩

/-- **C7 (amended).**  The warning is emitted on a processing step exactly
when the record is accepted (Claude model), the warning is enabled, and
the post-update consecutive-miss counter is at or above the threshold: it
is never emitted below the threshold, fires first on the miss that reaches
the threshold (with threshold 3, the 3rd consecutive write-miss, not the
1st or 2nd), and then re-fires on every further record processed while the
counter stays at or above the threshold, until a hit resets the
counter. -/
theorem c7_waste_warning (settings : MonitorSettings) (now : Nat)
    (cur : CurrentRequest) (prev : PreviousRequest) (stats : SessionStats)
    (usage : Usage) :
    ((processUsageData settings now cur prev stats usage).warned =
      (isClaude usage.model && settings.autoPauseOnWaste &&
        decide (settings.wasteThreshold ≤
          (processUsageData settings now cur prev stats usage).stats.consecutiveMisses))) ∧
    (c7WarnedAt 0, c7WarnedAt 1, c7WarnedAt 2, c7WarnedAt 3) =
      (false, false, true, true) := by
  refine ⟨?_, by decide⟩
  by_cases hc : isClaude usage.model
  · simp only [processUsageData, hc, Bool.not_true, Bool.false_eq_true, if_false,
      Bool.true_and]
  · simp [processUsageData, hc]

/-! ## Claim C9 — bounded request-history ring buffer -/

/-- **C9.**  One `processUsageData` step preserves the history bound of
100 entries; and concretely, after 101 accepted records from the empty
state the history holds exactly 100 entries, namely records 2…101 in
order — the first-recorded entry has been evicted. -/
theorem c9_ring_buffer :
    (∀ (settings : MonitorSettings) (now : Nat) (cur : CurrentRequest)
      (prev : PreviousRequest) (stats : SessionStats) (usage : Usage),
      stats.requestHistory.length ≤ 100 →
      (processUsageData settings now cur prev stats usage).stats.requestHistory.length ≤ 100) ∧
    (c9State 101).1.requestHistory.length = 100 ∧
    ((c9State 101).1.requestHistory.map fun e => e.usage.input_tokens) =
      List.range' 2 100 ∧
    1 ∉ ((c9State 101).1.requestHistory.map fun e => e.usage.input_tokens) := by
  refine ⟨?_, by decide, by decide, by decide⟩
  intro settings now cur prev stats usage h
  by_cases hc : isClaude usage.model
  · simp only [processUsageData, hc, Bool.not_true, Bool.false_eq_true, if_false]
    repeat' split
    all_goals exact pushTrim_length_le _ _ h
  · simpa [processUsageData, hc] using h

/-- **C9, witness.**  The bound-preservation step at a concrete state. -/
theorem c9_ring_buffer_witness :
    initialSessionStats.requestHistory.length ≤ 100 ∧
    (processUsageData sampleNeutralSettings 0 emptyCurrentRequest
        initialPreviousRequest initialSessionStats sampleMissUsage).stats.requestHistory.length ≤ 100 :=
  ⟨by decide, c9_ring_buffer.1 _ _ _ _ _ _ (by decide)⟩

/-! ## Claim C10 — previous-snapshot frame condition -/

/-- **C10.**  `processUsageData` replaces the previous-request snapshot
only when a messages array was captured for the current request: with no
captured body the snapshot is returned unchanged in every field; once the
snapshot carries a timestamp it never reverts to the all-null state; and
when a messages array was captured on an accepted record, the snapshot is
replaced with the current request's data (timestamp set to now). -/
theorem c10_snapshot_frame (settings : MonitorSettings) (now : Nat)
    (cur : CurrentRequest) (prev : PreviousRequest) (stats : SessionStats)
    (usage : Usage) :
    (cur.messages = none →
      (processUsageData settings now cur prev stats usage).prev = prev) ∧
    (prev.timestamp.isSome = true →
      (processUsageData settings now cur prev stats usage).prev.timestamp.isSome = true) ∧
    (∀ msgs, cur.messages = some msgs → isClaude usage.model = true →
      (processUsageData settings now cur prev stats usage).prev.timestamp = some now) := by
  refine ⟨fun hm => ?_, fun hts => ?_, fun msgs hm hc => ?_⟩
  · by_cases hc : isClaude usage.model
    · simp [processUsageData, hc, hm]
    · simp [processUsageData, hc]
  · by_cases hc : isClaude usage.model
    · cases hmsg : cur.messages with
      | none => simp [processUsageData, hc, hmsg, hts]
      | some msgs => simp [processUsageData, hc, hmsg]
    · simpa [processUsageData, hc] using hts
  · simp [processUsageData, hc, hm]

/-- **C10, witness.**  No captured body leaves the snapshot untouched; a
captured body stamps the snapshot with the processing time. -/
theorem c10_snapshot_witness :
    (processUsageData sampleNeutralSettings 5 emptyCurrentRequest
      initialPreviousRequest initialSessionStats sampleHitUsage).prev =
      initialPreviousRequest ∧
    (processUsageData sampleNeutralSettings 5
      { emptyCurrentRequest with messages := some [] }
      initialPreviousRequest initialSessionStats sampleHitUsage).prev.timestamp = some 5 :=
  ⟨(c10_snapshot_frame _ _ _ _ _ _).1 rfl,
    (c10_snapshot_frame _ _ _ _ _ _).2.2 [] rfl (by decide)⟩

/-! ## Claim C3 — Miss Diagnoser: first request and TTL -/

/-- **C3.**  With no previous snapshot (the all-null snapshot: the
previous timestamp is null — and the hashes and system-prompt hash, which
every snapshot write sets together with it, are null too), the diagnosis
has exactly the single first-request reason, no divergence analysis, no
location analysis, `ttlWarning` false and no primary diagnosis.  With a
previous timestamp present, a TTL-expiry reason is recorded and
`ttlWarning` is set if and only if the elapsed time exceeds 300 000 ms. -/
theorem c3_miss_diagnoser :
    (∀ (prev : PreviousRequest) (msgs : Option (List Message))
      (hashes : List MessageFingerprint) (now : Nat),
      prev.timestamp = none → prev.messageHashes = none →
      prev.systemPromptHash = none →
      (analyzeCacheMiss prev msgs hashes now).reasons = [MissReason.firstRequest] ∧
      (analyzeCacheMiss prev msgs hashes now).divergence = none ∧
      (analyzeCacheMiss prev msgs hashes now).locationAnalysis = none ∧
      (analyzeCacheMiss prev msgs hashes now).ttlWarning = false ∧
      (analyzeCacheMiss prev msgs hashes now).primaryDiagnosis = none) ∧
    (∀ (prev : PreviousRequest) (msgs : Option (List Message))
      (hashes : List MessageFingerprint) (now ts : Nat),
      prev.timestamp = some ts →
      ((analyzeCacheMiss prev msgs hashes now).ttlWarning = true ↔
        300000 < now - ts) ∧
      ((∃ s, MissReason.ttlExpired s ∈ (analyzeCacheMiss prev msgs hashes now).reasons) ↔
        300000 < now - ts)) := by
  constructor
  · intro prev msgs hashes now h1 h2 h3
    simp [analyzeCacheMiss, h1, h2, h3, ttlBlock, divBlock, sysPromptBlock_none]
  · intro prev msgs hashes now ts hts
    constructor
    · simp only [analyzeCacheMiss, hts, ttlBlock]
      split
      · rename_i h
        simpa using h
      · rename_i h
        simpa using h
    · have hs := sysPromptBlock_subset prev.systemPromptHash msgs
      rcases divBlock_reasons prev.messageHashes hashes with hd | ⟨d, hd⟩ <;>
      · simp only [analyzeCacheMiss, hts, ttlBlock]
        split
        · rename_i h
          constructor
          · intro _; exact h
          · intro _
            exact ⟨jsRoundDiv1000 (now - ts), by simp⟩
        · rename_i h
          constructor
          · rintro ⟨s, hmem⟩
            exfalso
            simp only [List.nil_append] at hmem
            rcases List.mem_append.mp hmem with hm | hm
            · rw [hd] at hm
              simp at hm
            · have := hs _ hm
              simp at this
          · intro hcond
            exact absurd hcond h

/-- **C3, witness.**  The all-null snapshot yields exactly the
first-request reason; a 400 000 ms gap sets the TTL warning. -/
theorem c3_miss_diagnoser_witness :
    (analyzeCacheMiss initialPreviousRequest none [] 0).reasons =
      [MissReason.firstRequest] ∧
    (analyzeCacheMiss { initialPreviousRequest with timestamp := some 0 }
      none [] 400000).ttlWarning = true :=
  ⟨(c3_miss_diagnoser.1 initialPreviousRequest none [] 0 rfl rfl rfl).1,
    ((c3_miss_diagnoser.2 _ none [] 400000 0 rfl).1).mpr (by norm_num)⟩

/-! ## Claim C4 — Divergence Locator -/

/-- The index loop reports the first hash mismatch, offset by the running
index. -/
lemma findDivergenceAux_contentDiff :
    ∀ (p c : List MessageFingerprint) (i pL cL k : Nat),
      k < min p.length c.length →
      (p.get? k).map MessageFingerprint.hash ≠ (c.get? k).map MessageFingerprint.hash →
      (∀ j, j < k →
        (p.get? j).map MessageFingerprint.hash = (c.get? j).map MessageFingerprint.hash) →
      (findDivergenceAux p c i pL cL).isContentDiff = true ∧
      (findDivergenceAux p c i pL cL).divergeIdx = (i + k : Nat) := by
  intro p
  induction p with
  | nil => intro c i pL cL k hk _ _; simp at hk
  | cons ph pt ih =>
    intro c i pL cL k hk hne hall
    cases c with
    | nil => simp at hk
    | cons ch ct =>
      cases k with
      | zero =>
        have hh : ph.hash ≠ ch.hash := by simpa using hne
        simp [findDivergenceAux, hh, DivergenceResult.isContentDiff,
          DivergenceResult.divergeIdx]
      | succ k =>
        have h0 : ph.hash = ch.hash := by simpa using hall 0 (Nat.succ_pos k)
        have hk' : k < min pt.length ct.length := by
          rcases Nat.lt_min.mp hk with ⟨ha, hb⟩
          simp only [List.length_cons] at ha hb
          exact Nat.lt_min.mpr ⟨by omega, by omega⟩
        have hne' : (pt.get? k).map MessageFingerprint.hash ≠
            (ct.get? k).map MessageFingerprint.hash := by simpa using hne
        have hall' : ∀ j, j < k →
            (pt.get? j).map MessageFingerprint.hash =
              (ct.get? j).map MessageFingerprint.hash := by
          intro j hj
          simpa using hall (j + 1) (by omega)
        have hrec := ih ct (i + 1) pL cL k hk' hne' hall'
        rw [findDivergenceAux, if_neg (by simp [h0])]
        refine ⟨hrec.1, ?_⟩
        rw [hrec.2]
        push_cast
        ring

/-- When all compared hashes agree, the loop falls through to the
length-mismatch / no-divergence returns. -/
lemma findDivergenceAux_allEq :
    ∀ (p c : List MessageFingerprint) (i pL cL : Nat),
      (∀ j, j < min p.length c.length →
        (p.get? j).map MessageFingerprint.hash = (c.get? j).map MessageFingerprint.hash) →
      findDivergenceAux p c i pL cL =
        if pL ≠ cL then .countChanged (i + min p.length c.length) pL cL
        else .noDivergence := by
  intro p
  induction p with
  | nil =>
    intro c i pL cL _
    cases c <;> simp [findDivergenceAux]
  | cons ph pt ih =>
    intro c i pL cL hall
    cases c with
    | nil => simp [findDivergenceAux]
    | cons ch ct =>
      have h0 : ph.hash = ch.hash := by
        simpa using hall 0 (Nat.lt_min.mpr ⟨Nat.succ_pos _, Nat.succ_pos _⟩)
      have hall' : ∀ j, j < min pt.length ct.length →
          (pt.get? j).map MessageFingerprint.hash =
            (ct.get? j).map MessageFingerprint.hash := by
        intro j hj
        rcases Nat.lt_min.mp hj with ⟨ha, hb⟩
        simpa using hall (j + 1)
          (Nat.lt_min.mpr ⟨by simpa using Nat.succ_lt_succ ha,
            by simpa using Nat.succ_lt_succ hb⟩)
      rw [findDivergenceAux, if_neg (by simp [h0]), ih ct (i + 1) pL cL hall']
      split
      · simp only [List.length_cons]
        congr 1
        omega
      · rfl

/-- **C4.**  `findDivergencePoint` returns the smallest index at which the
two hash sequences differ (the first mismatch is authoritative); when all
indices up to the shorter length match but the lengths differ it returns
the shorter length with the message-count-changed indicator; with equal
lengths and all hashes matching it reports no divergence.  In particular
`[A,B,C]` vs `[A,B,D]` diverges at index 2, `[A,B]` vs `[A,B,C]` is a
count change at index 2, and `[A,B]` vs `[A,B]` has no divergence. -/
theorem c4_divergence_locator (p c : List MessageFingerprint) :
    (∀ i, i < min p.length c.length →
      (p.get? i).map MessageFingerprint.hash ≠ (c.get? i).map MessageFingerprint.hash →
      (∀ j, j < i →
        (p.get? j).map MessageFingerprint.hash = (c.get? j).map MessageFingerprint.hash) →
      (findDivergencePoint (some p) (some c)).isContentDiff = true ∧
      (findDivergencePoint (some p) (some c)).divergeIdx = (i : Nat)) ∧
    ((∀ j, j < min p.length c.length →
        (p.get? j).map MessageFingerprint.hash = (c.get? j).map MessageFingerprint.hash) →
      p.length ≠ c.length →
      findDivergencePoint (some p) (some c) =
        .countChanged (min p.length c.length) p.length c.length) ∧
    ((∀ j, j < min p.length c.length →
        (p.get? j).map MessageFingerprint.hash = (c.get? j).map MessageFingerprint.hash) →
      p.length = c.length →
      findDivergencePoint (some p) (some c) = .noDivergence) ∧
    ((findDivergencePoint (some [mkFp "A", mkFp "B", mkFp "C"])
        (some [mkFp "A", mkFp "B", mkFp "D"])).divergeIdx = 2 ∧
      (findDivergencePoint (some [mkFp "A", mkFp "B", mkFp "C"])
        (some [mkFp "A", mkFp "B", mkFp "D"])).isContentDiff = true) ∧
    (findDivergencePoint (some [mkFp "A", mkFp "B"])
      (some [mkFp "A", mkFp "B", mkFp "C"])) = .countChanged 2 2 3 ∧
    (findDivergencePoint (some [mkFp "A", mkFp "B"])
      (some [mkFp "A", mkFp "B"])) = .noDivergence := by
  refine ⟨?_, ?_, ?_, ⟨by decide, by decide⟩, by decide, by decide⟩
  · intro i hi hne hall
    have := findDivergenceAux_contentDiff p c 0 p.length c.length i hi hne hall
    simpa [findDivergencePoint] using this
  · intro hall hlen
    have := findDivergenceAux_allEq p c 0 p.length c.length hall
    simpa [findDivergencePoint, hlen] using this
  · intro hall hlen
    have := findDivergenceAux_allEq p c 0 p.length c.length hall
    simpa [findDivergencePoint, hlen] using this

/-- **C4, witness.**  The first-mismatch case at the `[A,B,C]`/`[A,B,D]`
example. -/
theorem c4_divergence_witness :
    (findDivergencePoint (some [mkFp "A", mkFp "B", mkFp "C"])
      (some [mkFp "A", mkFp "B", mkFp "D"])).divergeIdx = ((2 : Nat) : Int) :=
  ((c4_divergence_locator _ _).1 2 (by decide) (by decide) (by decide)).2

/-! ## Claim C5 — divergence-location classification -/

/-- An early divergence always classifies location `"early"`. -/
lemma adl_early (i n : Nat) (pc cc : String) (pp cp : ContentPatterns)
    (he : 5 * i < n ∨ i < 3) :
    (analyzeDivergenceLocation i n pc cc pp cp).location = "early" := by
  rcases hdet : detectLoreOrderingIssues pp.loreEntryNames cp.loreEntryNames with _ | li <;>
    by_cases hlc : pp.hasLoreEntries = true ∨ cp.hasLoreEntries = true <;>
    by_cases hdm : pp.hasDepthMarkers = true ∨ cp.hasDepthMarkers = true <;>
    simp [analyzeDivergenceLocation, he, hdet, hlc, hdm]

/-- A mid-prompt divergence classifies location `"middle"`. -/
lemma adl_middle (i n : Nat) (pc cc : String) (pp cp : ContentPatterns)
    (h1 : ¬(5 * i < n ∨ i < 3)) (h3 : 5 * i < 4 * n) :
    (analyzeDivergenceLocation i n pc cc pp cp).location = "middle" := by
  by_cases hlc : pp.hasLoreEntries = true ∨ cp.hasLoreEntries = true <;>
    simp [analyzeDivergenceLocation, h1, h3, hlc]

/-- A late divergence classifies location `"late"`. -/
lemma adl_late (i n : Nat) (pc cc : String) (pp cp : ContentPatterns)
    (h1 : ¬(5 * i < n ∨ i < 3)) (h3 : ¬(5 * i < 4 * n)) :
    (analyzeDivergenceLocation i n pc cc pp cp).location = "late" := by
  simp [analyzeDivergenceLocation, h1, h3]

/-- **C5, counterexample.**  Divergence index 1 of 10 messages (early),
both sides showing lorebook entries with *different* names (a
different-entries lore issue, not a reordering), and no depth markers: the
claim's mapping ("early otherwise → system-prompt-change") demands
`system_prompt_change`, but the code classifies `lorebook_keywords`. -/
theorem c5_early_keywords_counterexample :
    (analyzeDivergenceLocation 1 10 "" "" c5Prev c5Curr).location = "early" ∧
    c5Prev.hasDepthMarkers = false ∧ c5Curr.hasDepthMarkers = false ∧
    (detectLoreOrderingIssues c5Prev.loreEntryNames c5Curr.loreEntryNames).map
      LoreIssue.type ≠ some "reordering" ∧
    (analyzeDivergenceLocation 1 10 "" "" c5Prev c5Curr).likelyCause =
      some "lorebook_keywords" ∧
    (analyzeDivergenceLocation 1 10 "" "" c5Prev c5Curr).likelyCause ≠
      some "system_prompt_change" := by
  refine ⟨by decide, rfl, rfl, by decide, by decide, by decide⟩

/-- **C5 (amended).**  `analyzeDivergenceLocation` classifies "early" iff
`i/n < 0.2` (as rationals: `5·i < n`) or `i < 3`, otherwise "middle" iff
`i/n < 0.8`, otherwise "late"; and the cause/severity mapping holds with
the early lore analysis taking precedence over the depth check: early with
a lore-reordering issue is high-severity `lorebook_ordering`; early with
any other lore issue (different entries) is medium-severity
`lorebook_keywords`; early with no lore issue and depth markers present is
high-severity `depth_configuration`; early otherwise is medium-severity
`system_prompt_change`; middle with lore entries on either side is
high-severity `lorebook_depth_injection`; middle otherwise is
medium-severity `injected_content`; late is the low-severity
`chat_history` (expected) cause. -/
theorem c5_location_cause_mapping (i n : Nat) (pc cc : String)
    (pp cp : ContentPatterns) :
    ((analyzeDivergenceLocation i n pc cc pp cp).location = "early" ↔
      (5 * i < n ∨ i < 3)) ∧
    ((analyzeDivergenceLocation i n pc cc pp cp).location = "middle" ↔
      (¬(5 * i < n ∨ i < 3) ∧ 5 * i < 4 * n)) ∧
    ((analyzeDivergenceLocation i n pc cc pp cp).location = "late" ↔
      (¬(5 * i < n ∨ i < 3) ∧ ¬(5 * i < 4 * n))) ∧
    ((5 * i < n ∨ i < 3) → (pp.hasLoreEntries || cp.hasLoreEntries) = true →
      ∀ li, detectLoreOrderingIssues pp.loreEntryNames cp.loreEntryNames = some li →
      (li.type = "reordering" →
        (analyzeDivergenceLocation i n pc cc pp cp).likelyCause =
          some "lorebook_ordering" ∧
        (analyzeDivergenceLocation i n pc cc pp cp).severity = "high") ∧
      (li.type ≠ "reordering" →
        (analyzeDivergenceLocation i n pc cc pp cp).likelyCause =
          some "lorebook_keywords" ∧
        (analyzeDivergenceLocation i n pc cc pp cp).severity = "medium")) ∧
    ((5 * i < n ∨ i < 3) →
      ((pp.hasLoreEntries || cp.hasLoreEntries) = false ∨
        detectLoreOrderingIssues pp.loreEntryNames cp.loreEntryNames = none) →
      (pp.hasDepthMarkers || cp.hasDepthMarkers) = true →
      (analyzeDivergenceLocation i n pc cc pp cp).likelyCause =
        some "depth_configuration" ∧
      (analyzeDivergenceLocation i n pc cc pp cp).severity = "high") ∧
    ((5 * i < n ∨ i < 3) →
      ((pp.hasLoreEntries || cp.hasLoreEntries) = false ∨
        detectLoreOrderingIssues pp.loreEntryNames cp.loreEntryNames = none) →
      (pp.hasDepthMarkers || cp.hasDepthMarkers) = false →
      (analyzeDivergenceLocation i n pc cc pp cp).likelyCause =
        some "system_prompt_change" ∧
      (analyzeDivergenceLocation i n pc cc pp cp).severity = "medium") ∧
    (¬(5 * i < n ∨ i < 3) → 5 * i < 4 * n →
      (pp.hasLoreEntries || cp.hasLoreEntries) = true →
      (analyzeDivergenceLocation i n pc cc pp cp).likelyCause =
        some "lorebook_depth_injection" ∧
      (analyzeDivergenceLocation i n pc cc pp cp).severity = "high") ∧
    (¬(5 * i < n ∨ i < 3) → 5 * i < 4 * n →
      (pp.hasLoreEntries || cp.hasLoreEntries) = false →
      (analyzeDivergenceLocation i n pc cc pp cp).likelyCause =
        some "injected_content" ∧
      (analyzeDivergenceLocation i n pc cc pp cp).severity = "medium") ∧
    (¬(5 * i < n ∨ i < 3) → ¬(5 * i < 4 * n) →
      (analyzeDivergenceLocation i n pc cc pp cp).likelyCause = some "chat_history" ∧
      (analyzeDivergenceLocation i n pc cc pp cp).severity = "low") := by
  refine ⟨?_, ?_, ?_, ?_, ?_, ?_, ?_, ?_, ?_⟩
  · constructor
    · intro hloc
      by_contra hne
      by_cases h3 : 5 * i < 4 * n
      · rw [adl_middle i n pc cc pp cp hne h3] at hloc
        simp at hloc
      · rw [adl_late i n pc cc pp cp hne h3] at hloc
        simp at hloc
    · exact adl_early i n pc cc pp cp
  · constructor
    · intro hloc
      have hne : ¬(5 * i < n ∨ i < 3) := by
        intro he
        rw [adl_early i n pc cc pp cp he] at hloc
        simp at hloc
      have h3 : 5 * i < 4 * n := by
        by_contra h3
        rw [adl_late i n pc cc pp cp hne h3] at hloc
        simp at hloc
      exact ⟨hne, h3⟩
    · rintro ⟨hne, h3⟩
      exact adl_middle i n pc cc pp cp hne h3
  · constructor
    · intro hloc
      have hne : ¬(5 * i < n ∨ i < 3) := by
        intro he
        rw [adl_early i n pc cc pp cp he] at hloc
        simp at hloc
      have h3 : ¬(5 * i < 4 * n) := by
        intro h3
        rw [adl_middle i n pc cc pp cp hne h3] at hloc
        simp at hloc
      exact ⟨hne, h3⟩
    · rintro ⟨hne, h3⟩
      exact adl_late i n pc cc pp cp hne h3
  · intro he hl li hdet
    have hl' : pp.hasLoreEntries = true ∨ cp.hasLoreEntries = true := by simpa using hl
    constructor <;> intro hty <;>
      simp [analyzeDivergenceLocation, he, hl', hdet, hty]
  · intro he hcond hdm
    have hdm' : pp.hasDepthMarkers = true ∨ cp.hasDepthMarkers = true := by simpa using hdm
    rcases hcond with hl | hdet
    · have hlf : pp.hasLoreEntries = false ∧ cp.hasLoreEntries = false := by simpa using hl
      simp [analyzeDivergenceLocation, he, hlf.1, hlf.2, hdm']
    · by_cases hlc : pp.hasLoreEntries = true ∨ cp.hasLoreEntries = true <;>
        simp [analyzeDivergenceLocation, he, hlc, hdet, hdm']
  · intro he hcond hdm
    have hdm' : pp.hasDepthMarkers = false ∧ cp.hasDepthMarkers = false := by simpa using hdm
    rcases hcond with hl | hdet
    · have hlf : pp.hasLoreEntries = false ∧ cp.hasLoreEntries = false := by simpa using hl
      simp [analyzeDivergenceLocation, he, hlf.1, hlf.2, hdm'.1, hdm'.2]
    · by_cases hlc : pp.hasLoreEntries = true ∨ cp.hasLoreEntries = true <;>
        simp [analyzeDivergenceLocation, he, hlc, hdet, hdm'.1, hdm'.2]
  · intro h1 h3 hl
    have hl' : pp.hasLoreEntries = true ∨ cp.hasLoreEntries = true := by simpa using hl
    simp [analyzeDivergenceLocation, h1, h3, hl']
  · intro h1 h3 hl
    have hlf : pp.hasLoreEntries = false ∧ cp.hasLoreEntries = false := by simpa using hl
    simp [analyzeDivergenceLocation, h1, h3, hlf.1, hlf.2]
  · intro h1 h3
    simp [analyzeDivergenceLocation, h1, h3]

/-- **C5, witness.**  An early divergence with a reordering lore issue is
the high-severity lorebook-ordering cause. -/
theorem c5_mapping_witness :
    (analyzeDivergenceLocation 0 10 "" "" c5WitPrev c5WitCurr).likelyCause =
      some "lorebook_ordering" ∧
    (analyzeDivergenceLocation 0 10 "" "" c5WitPrev c5WitCurr).severity = "high" :=
  ((c5_location_cause_mapping 0 10 "" "" c5WitPrev c5WitCurr).2.2.2.1
    (Or.inl (by norm_num)) rfl _ rfl).1 rfl

/-! ## Claim C6 — lorebook entry-name comparison -/

/-- **C6, counterexample.**  With a previous entry list `["Alpha"]` and an
empty current list the multisets differ (the lists are not permutations of
one another), yet the analysis reports no lore issue at all rather than a
`"different_entries"` classification. -/
theorem c6_empty_list_counterexample :
    detectLoreOrderingIssues ["Alpha"] [] = none ∧
    ¬ List.Perm ["Alpha"] ([] : List String) := by
  refine ⟨rfl, fun h => by simpa using h.length_eq⟩

/-- **C6 (amended).**  `detectLoreOrderingIssues` reports no lore issue
whenever either list is empty.  For two non-empty lists it classifies
`"reordering"` when they have equal length, every previous name occurs in
the current list, and the lists differ at some index (set-based — not
multiset-based — comparison); it classifies `"different_entries"`, listing
`added` (current names absent from the previous list) and `removed`
(previous names absent from the current list), when the length/set check
fails and at least one of those difference lists is non-empty; otherwise
(identical lists, or equal sets with unequal lengths) it reports no
issue. -/
theorem c6_lore_ordering (p c : List String) :
    (p = [] ∨ c = [] → detectLoreOrderingIssues p c = none) ∧
    (p.length = c.length → (∀ e ∈ p, e ∈ c) → p ≠ c →
      (detectLoreOrderingIssues p c).map LoreIssue.type = some "reordering") ∧
    (p ≠ [] → c ≠ [] → ¬(p.length = c.length ∧ ∀ e ∈ p, e ∈ c) →
      (addedOf p c ≠ [] ∨ removedOf p c ≠ []) →
      detectLoreOrderingIssues p c =
        some { type := "different_entries"
               message := "Different lorebook entries triggered"
               recommendation := "If entries change due to keywords, this is expected. For stable caching, set frequently-used entries to \"Constant\" mode."
               details := .addedRemoved (addedOf p c) (removedOf p c) }) ∧
    (p.length = c.length → (∀ e ∈ p, e ∈ c) → p = c →
      detectLoreOrderingIssues p c = none) ∧
    (p ≠ [] → c ≠ [] → ¬(p.length = c.length ∧ ∀ e ∈ p, e ∈ c) →
      addedOf p c = [] → removedOf p c = [] →
      detectLoreOrderingIssues p c = none) := by
  refine ⟨?_, ?_, ?_, ?_, ?_⟩
  · rintro (h | h) <;> simp [detectLoreOrderingIssues, h]
  · intro hlen hsub hne
    have hp : p ≠ [] := by
      intro h
      subst h
      have : c = [] := by simpa using hlen.symm
      exact hne (by rw [this])
    have hc : c ≠ [] := by
      intro h
      subst h
      have : p = [] := by simpa using hlen
      exact hne (by rw [this])
    obtain ⟨ab, hab⟩ :=
      Option.isSome_iff_exists.mp (firstMismatch_isSome p c hlen hne)
    simp [detectLoreOrderingIssues, hp, hc, hlen, eq_true hsub, hab]
  · intro hp hc hnot hor
    simp only [detectLoreOrderingIssues]
    simp [hp, hc, hnot]
    intro hallcp
    rcases hor with h | h
    · exact absurd hallcp h
    · exact h
  · intro hlen hsub heq
    subst heq
    by_cases hp : p = []
    · simp [detectLoreOrderingIssues, hp]
    · simp [detectLoreOrderingIssues, hp, firstMismatch_self]
  · intro hp hc hnot hadd hrem
    simp [detectLoreOrderingIssues, hp, hc, hnot, hadd, hrem]

/-- **C6, witness.**  Equal-length lists with the same names in a
different order classify as a reordering. -/
theorem c6_lore_ordering_witness :
    (detectLoreOrderingIssues ["A", "B"] ["B", "A"]).map LoreIssue.type =
      some "reordering" :=
  (c6_lore_ordering ["A", "B"] ["B", "A"]).2.1 (by decide) (by decide) (by decide)

end CacheMonitor
